import Mathlib

/-!
Verification of the download router (`src/routers/download.py`) of the
gitingest repository: a single HTTP GET handler that resolves a digest
identifier to a directory, picks the first `.txt` file, validates it and
returns its content, mapping failures to HTTP status codes.

The handler is embedded shallowly: the filesystem is a record of the four
read operations the Python code performs (`os.path.exists`, `os.listdir`,
`os.path.getsize`, `open`/`read`), each allowed to fail with the OS errors
Python can raise.  The handler body (the `try` block) is a pure function of
that filesystem and the digest identifier; the `except` clauses are a match
on the outcome.  Every filesystem call is also recorded in an operation
trace so that frame and no-read properties can be stated.
-/

namespace Gitingest

/-- OS-level errors a Python filesystem call can raise: `FileNotFoundError`,
`PermissionError`, or any other `OSError`-like failure (carrying a message). -/
inductive OSError where
  | fileNotFound
  | permissionDenied
  | other (msg : String)
deriving DecidableEq, Repr

/-- Exceptions that can propagate out of the `try` block of
`download_ingest`: an explicitly raised `fastapi.HTTPException` (status code
and detail), or one of the OS errors from a filesystem call. -/
inductive PyError where
  | httpException (status : Nat) (detail : String)
  | fileNotFoundError
  | permissionError
  | otherError (msg : String)
deriving DecidableEq, Repr

/-- How an OS error surfaces as a Python exception inside the `try` block. -/
def OSError.toPyError : OSError → PyError
  | .fileNotFound => .fileNotFoundError
  | .permissionDenied => .permissionError
  | .other m => .otherError m

/-- The filesystem as seen through the four read-only calls the handler
makes.  `os.path.exists` never raises (it returns `False` on error); the
other three can raise. -/
structure FileSystem where
  pathExists : String → Bool
  listdir : String → Except OSError (List String)
  getsize : String → Except OSError Nat
  readFile : String → Except OSError String

/-- One recorded filesystem operation.  The handler only ever performs the
first four (read-only) kinds; the mutating kinds are in the type so that
the frame property (no write / delete / mkdir ever occurs) is a statement
about the trace, not about the vocabulary. -/
inductive FsOp where
  | opPathExists (path : String)
  | opListdir (path : String)
  | opGetsize (path : String)
  | opRead (path : String)
  | opWrite (path : String)
  | opDelete (path : String)
  | opMkdir (path : String)
deriving DecidableEq, Repr

/-- An operation is read-only when it is not a write, delete or mkdir. -/
def FsOp.isReadOnly : FsOp → Bool
  | .opWrite _ => false
  | .opDelete _ => false
  | .opMkdir _ => false
  | _ => true

/-- An operation is a file read. -/
def FsOp.isRead : FsOp → Bool
  | .opRead _ => true
  | _ => false

/-- Python `str.strip()`: the string with leading and trailing whitespace
removed (whitespace modelled by `Char.isWhitespace`). -/
def py_strip (s : String) : String :=
  ⟨((s.data.dropWhile Char.isWhitespace).reverse.dropWhile Char.isWhitespace).reverse⟩

/-- Python `s.endswith(suffix)`. -/
def py_endswith (s suffix : String) : Bool :=
  suffix.data.isSuffixOf s.data

/-- Modelled from the spec: the configured base path for digest
directories (`TMP_BASE_PATH`, imported from the `config` module, which is
not part of the router source).  The spec only says it is one externally
configured base directory path; no claim depends on its value. -/
def TMP_BASE_PATH : String := "/tmp/gitingest"

/-- `MAX_FILE_SIZE_BYTES = 50 * 1024 * 1024`, the 50 MiB limit. -/
def MAX_FILE_SIZE_BYTES : Nat := 50 * 1024 * 1024

/-- `validate_file_content`: returns an error message for empty /
whitespace-only content (`not content.strip()`) or content whose UTF-8
encoding exceeds `MAX_FILE_SIZE_BYTES`; returns `none` for valid content. -/
def validate_file_content (content : String) : Option String :=
  if (py_strip content).data.isEmpty then
    some "File is empty"
  else if content.utf8ByteSize > MAX_FILE_SIZE_BYTES then
    some ("File size exceeds maximum limit of "
          ++ toString (MAX_FILE_SIZE_BYTES / 1024 / 1024) ++ "MB")
  else
    none

/-- A successful `Response(...)` as constructed by the handler: body
content, media type, and the two explicit headers. `Content-Length` is the
string `str(len(content.encode("utf-8")))`. -/
structure SuccessResponse where
  content : String
  media_type : String
  contentDisposition : String
  contentLength : String
deriving DecidableEq, Repr

/-- What the HTTP framework sends back: a 200 response built from a
`Response(...)` value (FastAPI `Response` defaults the status code to 200),
or the response for an `HTTPException` that propagated out of the handler
(status code plus detail message). -/
inductive HttpResponse where
  | success (r : SuccessResponse)
  | failure (status : Nat) (detail : String)
deriving DecidableEq, Repr

/-- The HTTP status code of a response. -/
def HttpResponse.status : HttpResponse → Nat
  | .success _ => 200
  | .failure s _ => s

/-- The `try` block of `download_ingest`, line by line: build the directory
path, check existence, list and filter to `.txt` names, take the first,
check the reported size, read, validate, and build the `Response`.  The
returned trace records each filesystem call made on that path through the
block. -/
def download_ingest_try (fs : FileSystem) (digest_id : String) :
    Except PyError SuccessResponse × List FsOp :=
  let directory := TMP_BASE_PATH ++ "/" ++ digest_id
  if fs.pathExists directory then
    match fs.listdir directory with
    | .error e => (.error e.toPyError, [.opPathExists directory, .opListdir directory])
    | .ok entries =>
      match entries.filter (fun f => py_endswith f ".txt") with
      | [] =>
        (.error (.httpException 404 "No text file found for this digest"),
         [.opPathExists directory, .opListdir directory])
      | first :: _ =>
        let file_path := directory ++ "/" ++ first
        match fs.getsize file_path with
        | .error e =>
          (.error e.toPyError,
           [.opPathExists directory, .opListdir directory, .opGetsize file_path])
        | .ok file_size =>
          if file_size > MAX_FILE_SIZE_BYTES then
            (.error (.httpException 413 "File too large to download"),
             [.opPathExists directory, .opListdir directory, .opGetsize file_path])
          else
            match fs.readFile file_path with
            | .error e =>
              (.error e.toPyError,
               [.opPathExists directory, .opListdir directory,
                .opGetsize file_path, .opRead file_path])
            | .ok content =>
              match validate_file_content content with
              | some error_msg =>
                (.error (.httpException 422 error_msg),
                 [.opPathExists directory, .opListdir directory,
                  .opGetsize file_path, .opRead file_path])
              | none =>
                (.ok { content := content
                       media_type := "text/plain"
                       contentDisposition := "attachment; filename=" ++ first
                       contentLength := toString content.utf8ByteSize },
                 [.opPathExists directory, .opListdir directory,
                  .opGetsize file_path, .opRead file_path])
  else
    (.error (.httpException 404 "Digest directory not found"),
     [.opPathExists directory])

/-- The whole handler: the `try` block together with its `except` clauses.
`fastapi.HTTPException` is a subclass of `Exception` but not of
`FileNotFoundError` or `PermissionError`, so an `HTTPException` raised
inside the `try` block is caught by the final `except Exception` clause,
which replaces it with `HTTPException(500, "Internal server error")`;
exceptions raised inside the `except` clauses themselves propagate. -/
def download_ingest (fs : FileSystem) (digest_id : String) :
    HttpResponse × List FsOp :=
  match download_ingest_try fs digest_id with
  | (.ok resp, trace) => (.success resp, trace)
  | (.error (.httpException _ _), trace) =>
    (.failure 500 "Internal server error", trace)
  | (.error .fileNotFoundError, trace) => (.failure 404 "Digest not found", trace)
  | (.error .permissionError, trace) =>
    (.failure 403 "Permission denied accessing digest", trace)
  | (.error (.otherError _), trace) => (.failure 500 "Internal server error", trace)

/-! Concrete filesystem states used to evaluate the handler at specific
inputs.  Each models one scenario the spec discusses. -/

/-- No digest directory exists anywhere. -/
def fsNoDir : FileSystem where
  pathExists := fun _ => false
  listdir := fun _ => .error .fileNotFound
  getsize := fun _ => .error .fileNotFound
  readFile := fun _ => .error .fileNotFound

/-- The digest directory exists but holds no `.txt` file. -/
def fsNoTxt : FileSystem where
  pathExists := fun _ => true
  listdir := fun _ => .ok ["readme.md"]
  getsize := fun _ => .error .fileNotFound
  readFile := fun _ => .error .fileNotFound

/-- One `.txt` file of reported size 5 with content `"hello"`. -/
def fsHello : FileSystem where
  pathExists := fun _ => true
  listdir := fun _ => .ok ["out.txt"]
  getsize := fun _ => .ok 5
  readFile := fun _ => .ok "hello"

/-- One `.txt` file whose reported size is one byte over the 50 MiB limit. -/
def fsOversized : FileSystem where
  pathExists := fun _ => true
  listdir := fun _ => .ok ["out.txt"]
  getsize := fun _ => .ok (MAX_FILE_SIZE_BYTES + 1)
  readFile := fun _ => .ok "hello"

/-- One `.txt` file whose content is whitespace only. -/
def fsBlank : FileSystem where
  pathExists := fun _ => true
  listdir := fun _ => .ok ["out.txt"]
  getsize := fun _ => .ok 3
  readFile := fun _ => .ok "   "

/-- One `.txt` file whose reported size is exactly the 50 MiB limit; the
read itself returns a short string (the reported size, not the content, is
what the pre-read check consults). -/
def fsAtLimit : FileSystem where
  pathExists := fun _ => true
  listdir := fun _ => .ok ["out.txt"]
  getsize := fun _ => .ok MAX_FILE_SIZE_BYTES
  readFile := fun _ => .ok "x"

/-- The file vanishes between the listing and the read: the read raises
`FileNotFoundError`. -/
def fsVanished : FileSystem where
  pathExists := fun _ => true
  listdir := fun _ => .ok ["out.txt"]
  getsize := fun _ => .ok 5
  readFile := fun _ => .error .fileNotFound

/-- Reading the file raises `PermissionError`. -/
def fsForbidden : FileSystem where
  pathExists := fun _ => true
  listdir := fun _ => .ok ["out.txt"]
  getsize := fun _ => .ok 5
  readFile := fun _ => .error .permissionDenied

/-- Reading the file raises an unanticipated error (a simulated I/O
failure whose message holds sensitive detail). -/
def fsBroken : FileSystem where
  pathExists := fun _ => true
  listdir := fun _ => .ok ["out.txt"]
  getsize := fun _ => .ok 5
  readFile := fun _ => .error (.other "disk failure at /tmp/gitingest/secret")

/-! Helper lemmas about the operation trace. -/

/-- The `except` clauses translate the outcome but touch no files: the
trace of the whole handler is the trace of the `try` block. -/
theorem download_ingest_trace (fs : FileSystem) (d : String) :
    (download_ingest fs d).2 = (download_ingest_try fs d).2 := by
  unfold download_ingest
  rcases h : download_ingest_try fs d with ⟨r, tr⟩
  rcases r with e | resp
  · cases e <;> rfl
  · rfl

/-- The response part of the handler, as a function of the outcome of the
`try` block alone. -/
theorem download_fst (fs : FileSystem) (d : String) :
    (download_ingest fs d).1 =
      (match (download_ingest_try fs d).1 with
       | .ok resp => .success resp
       | .error (.httpException _ _) => .failure 500 "Internal server error"
       | .error .fileNotFoundError => .failure 404 "Digest not found"
       | .error .permissionError => .failure 403 "Permission denied accessing digest"
       | .error (.otherError _) => .failure 500 "Internal server error") := by
  unfold download_ingest
  rcases h : download_ingest_try fs d with ⟨r, tr⟩
  rcases r with e | resp
  · cases e <;> rfl
  · rfl

/-- The trace of the `try` block is one of four prefixes: existence check
only; existence check and listing; those plus a size check on some path;
or those plus a size check and a read on that same path. -/
theorem download_trace_cases (fs : FileSystem) (d : String) :
    ∃ fp : String,
      (download_ingest_try fs d).2 =
          [FsOp.opPathExists (TMP_BASE_PATH ++ "/" ++ d)] ∨
      (download_ingest_try fs d).2 =
          [FsOp.opPathExists (TMP_BASE_PATH ++ "/" ++ d),
           FsOp.opListdir (TMP_BASE_PATH ++ "/" ++ d)] ∨
      (download_ingest_try fs d).2 =
          [FsOp.opPathExists (TMP_BASE_PATH ++ "/" ++ d),
           FsOp.opListdir (TMP_BASE_PATH ++ "/" ++ d), FsOp.opGetsize fp] ∨
      (download_ingest_try fs d).2 =
          [FsOp.opPathExists (TMP_BASE_PATH ++ "/" ++ d),
           FsOp.opListdir (TMP_BASE_PATH ++ "/" ++ d), FsOp.opGetsize fp,
           FsOp.opRead fp] := by
  by_cases hex : fs.pathExists (TMP_BASE_PATH ++ "/" ++ d) = true
  · rcases hls : fs.listdir (TMP_BASE_PATH ++ "/" ++ d) with e | entries
    · exact ⟨"", Or.inr (Or.inl (by simp [download_ingest_try, hex, hls]))⟩
    · rcases hft : entries.filter (fun f => py_endswith f ".txt") with _ | ⟨first, rest⟩
      · exact ⟨"", Or.inr (Or.inl (by simp [download_ingest_try, hex, hls, hft]))⟩
      · rcases hsz : fs.getsize (TMP_BASE_PATH ++ "/" ++ d ++ "/" ++ first) with e | file_size
        · exact ⟨TMP_BASE_PATH ++ "/" ++ d ++ "/" ++ first,
            Or.inr (Or.inr (Or.inl (by simp [download_ingest_try, hex, hls, hft, hsz])))⟩
        · by_cases hbig : MAX_FILE_SIZE_BYTES < file_size
          · exact ⟨TMP_BASE_PATH ++ "/" ++ d ++ "/" ++ first,
              Or.inr (Or.inr (Or.inl (by simp [download_ingest_try, hex, hls, hft, hsz, hbig])))⟩
          · rcases hrd : fs.readFile (TMP_BASE_PATH ++ "/" ++ d ++ "/" ++ first) with e | content
            · exact ⟨TMP_BASE_PATH ++ "/" ++ d ++ "/" ++ first,
                Or.inr (Or.inr (Or.inr (by simp [download_ingest_try, hex, hls, hft, hsz, hbig, hrd])))⟩
            · rcases hv : validate_file_content content with _ | msg
              · exact ⟨TMP_BASE_PATH ++ "/" ++ d ++ "/" ++ first,
                  Or.inr (Or.inr (Or.inr (by simp [download_ingest_try, hex, hls, hft, hsz, hbig, hrd, hv])))⟩
              · exact ⟨TMP_BASE_PATH ++ "/" ++ d ++ "/" ++ first,
                  Or.inr (Or.inr (Or.inr (by simp [download_ingest_try, hex, hls, hft, hsz, hbig, hrd, hv])))⟩
  · exact ⟨"", Or.inl (by simp [download_ingest_try, hex])⟩

/-! The claims. -/

/-- C1: the spec says a missing digest directory, and a directory with no
`.txt` file, both give a 404 response.  The code raises
`HTTPException(404, ...)` for both, but that exception is caught by the
final `except Exception` clause of the same `try` block and replaced with
a 500, so the handler actually answers 500 in both scenarios. -/
theorem C1_missing_directory_and_no_txt_return_500 :
    (download_ingest fsNoDir "nosuch").1 =
        .failure 500 "Internal server error" ∧
    (download_ingest fsNoTxt "d1").1 =
        .failure 500 "Internal server error" := by decide

/-- C2: for a digest directory with exactly one `.txt` file whose reported
size is at most 50 MiB and whose content is non-empty and not
whitespace-only (the reported size being the byte length of the content),
the handler returns the 200 `Response` whose body is the content, with
`Content-Disposition: attachment; filename=<name>` and `Content-Length`
equal to the UTF-8 byte length of the content. -/
theorem C2_success_response (fs : FileSystem) (d name : String)
    (entries : List String) (content : String)
    (hex : fs.pathExists (TMP_BASE_PATH ++ "/" ++ d) = true)
    (hls : fs.listdir (TMP_BASE_PATH ++ "/" ++ d) = .ok entries)
    (hft : entries.filter (fun f => py_endswith f ".txt") = [name])
    (hsz : fs.getsize (TMP_BASE_PATH ++ "/" ++ d ++ "/" ++ name) =
             .ok content.utf8ByteSize)
    (hle : content.utf8ByteSize ≤ MAX_FILE_SIZE_BYTES)
    (hrd : fs.readFile (TMP_BASE_PATH ++ "/" ++ d ++ "/" ++ name) = .ok content)
    (hne : (py_strip content).data.isEmpty = false) :
    (download_ingest fs d).1 = .success
      { content := content
        media_type := "text/plain"
        contentDisposition := "attachment; filename=" ++ name
        contentLength := toString content.utf8ByteSize } := by
  have hngt : ¬ (MAX_FILE_SIZE_BYTES < content.utf8ByteSize) := not_lt.mpr hle
  rw [download_fst]
  simp [download_ingest_try, hex, hls, hft, hsz, hrd,
        validate_file_content, hne, hngt]

/-- Concrete instance of C2: one file `out.txt` of size 5 holding
`"hello"`. -/
theorem C2_success_response_witness :
    (download_ingest fsHello "d1").1 = .success
      { content := "hello"
        media_type := "text/plain"
        contentDisposition := "attachment; filename=out.txt"
        contentLength := "5" } :=
  C2_success_response fsHello "d1" "out.txt" ["out.txt"] "hello" (by decide)
    rfl (by decide) rfl (by decide) rfl (by decide)

/-- C3: the spec says a file whose reported size exceeds 50 MiB gives a
413 and is never read.  The never-read half holds (the trace carries no
read operation), but the `HTTPException(413, ...)` is caught by the final
`except Exception` clause, so the handler actually answers 500, not
413. -/
theorem C3_oversized_file_returns_500_without_read :
    (download_ingest fsOversized "d1").1 =
        .failure 500 "Internal server error" ∧
    ((download_ingest fsOversized "d1").2.all (fun op => ! op.isRead)) =
        true := by decide

/-- C4: the spec says empty or whitespace-only content (and over-limit
content discovered after the read) gives a 422.  The validation helper
does flag such content, but the `HTTPException(422, ...)` is caught by the
final `except Exception` clause, so the handler actually answers 500, not
422. -/
theorem C4_invalid_content_returns_500 :
    (download_ingest fsBlank "d1").1 =
        .failure 500 "Internal server error" ∧
    validate_file_content "   " = some "File is empty" ∧
    validate_file_content "" = some "File is empty" := by decide

/-- C5: a `FileNotFoundError` raised by a filesystem call inside the `try`
block (the file vanished after listing) yields a 404 response, and a
`PermissionError` yields a 403; neither yields a 500, because these two
`except` clauses precede the catch-all and the `HTTPException`s they raise
propagate out of the handler. -/
theorem C5_read_errors_map_to_404_and_403 (fs : FileSystem) (d : String) :
    ((download_ingest_try fs d).1 = .error .fileNotFoundError →
      (download_ingest fs d).1 = .failure 404 "Digest not found") ∧
    ((download_ingest_try fs d).1 = .error .permissionError →
      (download_ingest fs d).1 =
        .failure 403 "Permission denied accessing digest") := by
  refine ⟨fun h1 => ?_, fun h1 => ?_⟩ <;> rw [download_fst, h1]

/-- Concrete instance of C5: a file that vanishes before the read gives
404; a file whose read is denied gives 403. -/
theorem C5_read_errors_witness :
    (download_ingest fsVanished "d1").1 = .failure 404 "Digest not found" ∧
    (download_ingest fsForbidden "d1").1 =
      .failure 403 "Permission denied accessing digest" :=
  ⟨(C5_read_errors_map_to_404_and_403 fsVanished "d1").1 rfl,
   (C5_read_errors_map_to_404_and_403 fsForbidden "d1").2 rfl⟩

/-- C6: any unanticipated exception (neither `FileNotFoundError` nor
`PermissionError`) raised inside the `try` block yields a 500 whose
client-facing detail is the fixed literal `"Internal server error"` —
independent of the exception message `m` and of the filesystem, so no
exception detail or path can reach the client. -/
theorem C6_unexpected_errors_map_to_generic_500 (fs : FileSystem)
    (d m : String)
    (h : (download_ingest_try fs d).1 = .error (.otherError m)) :
    (download_ingest fs d).1 = .failure 500 "Internal server error" := by
  rw [download_fst, h]

/-- Concrete instance of C6: a simulated I/O failure whose message names a
filesystem path still produces only the generic 500 detail. -/
theorem C6_unexpected_errors_witness :
    (download_ingest fsBroken "d1").1 =
      .failure 500 "Internal server error" :=
  C6_unexpected_errors_map_to_generic_500 fsBroken "d1"
    "disk failure at /tmp/gitingest/secret" rfl

/-- C7: the handler is a pure function of the filesystem state and the
digest identifier — it reads no clock, randomness or mutable global — so
two invocations against the same unchanged state return identical
responses (same status, body and headers). -/
theorem C7_identical_responses_for_identical_state (fs : FileSystem)
    (d : String) (first second : HttpResponse × List FsOp)
    (h1 : first = download_ingest fs d)
    (h2 : second = download_ingest fs d) :
    first.1 = second.1 := by rw [h1, h2]

/-- Concrete instance of C7: two invocations on the `fsHello` state. -/
theorem C7_identical_responses_witness :
    (download_ingest fsHello "d1").1 = (download_ingest fsHello "d1").1 :=
  C7_identical_responses_for_identical_state fsHello "d1" _ _ rfl rfl

/-- C8: on every path, success or error, every filesystem operation the
handler performs is read-only — its trace never contains a write, delete
or mkdir — so the filesystem state is left unchanged. -/
theorem C8_all_filesystem_operations_read_only (fs : FileSystem)
    (d : String) :
    ((download_ingest fs d).2.all FsOp.isReadOnly) = true := by
  rw [download_ingest_trace]
  obtain ⟨fp, h | h | h | h⟩ := download_trace_cases fs d <;> rw [h] <;> rfl

/-- C9: for every digest identifier string — including ones holding path
separators or `..` segments — the directory the handler touches is exactly
`TMP_BASE_PATH ++ "/" ++ digest_id`: the first operation is the existence
check on that very path, and every existence check and listing in the
trace uses that path, with no normalization or sanitization. -/
theorem C9_directory_path_is_raw_join (fs : FileSystem) (d : String) :
    (download_ingest fs d).2.head? =
        some (FsOp.opPathExists (TMP_BASE_PATH ++ "/" ++ d)) ∧
    (∀ p, FsOp.opPathExists p ∈ (download_ingest fs d).2 →
        p = TMP_BASE_PATH ++ "/" ++ d) ∧
    (∀ p, FsOp.opListdir p ∈ (download_ingest fs d).2 →
        p = TMP_BASE_PATH ++ "/" ++ d) := by
  refine ⟨?_, fun p hp => ?_, fun p hp => ?_⟩
  · rw [download_ingest_trace]
    obtain ⟨fp, h | h | h | h⟩ := download_trace_cases fs d <;> rw [h] <;> rfl
  · rw [download_ingest_trace] at hp
    obtain ⟨fp, h | h | h | h⟩ := download_trace_cases fs d <;>
      rw [h] at hp <;> simp_all
  · rw [download_ingest_trace] at hp
    obtain ⟨fp, h | h | h | h⟩ := download_trace_cases fs d <;>
      rw [h] at hp <;> simp_all

/-- Concrete instance of C9: an identifier holding a `..` segment is used
verbatim in the accessed path. -/
theorem C9_directory_path_witness :
    (download_ingest fsHello "../escape").2.head? =
        some (FsOp.opPathExists "/tmp/gitingest/../escape") ∧
    "/tmp/gitingest/../escape" = TMP_BASE_PATH ++ "/" ++ "../escape" :=
  ⟨(C9_directory_path_is_raw_join fsHello "../escape").1,
   (C9_directory_path_is_raw_join fsHello "../escape").2.2
     "/tmp/gitingest/../escape" (by decide)⟩

/-- C10: both size comparisons are strict, so the 50 MiB limit itself is
allowed: a file whose reported size is exactly `MAX_FILE_SIZE_BYTES`
passes the pre-read check (the read operation is performed), and content
of UTF-8 byte length up to and including `MAX_FILE_SIZE_BYTES` passes the
post-read size check (validation can only flag emptiness, never size). -/
theorem C10_exact_limit_passes_both_size_checks (fs : FileSystem)
    (d name : String) (entries rest : List String)
    (hex : fs.pathExists (TMP_BASE_PATH ++ "/" ++ d) = true)
    (hls : fs.listdir (TMP_BASE_PATH ++ "/" ++ d) = .ok entries)
    (hft : entries.filter (fun f => py_endswith f ".txt") = name :: rest)
    (hsz : fs.getsize (TMP_BASE_PATH ++ "/" ++ d ++ "/" ++ name) =
             .ok MAX_FILE_SIZE_BYTES) :
    FsOp.opRead (TMP_BASE_PATH ++ "/" ++ d ++ "/" ++ name) ∈
        (download_ingest fs d).2 ∧
    ∀ content : String, content.utf8ByteSize ≤ MAX_FILE_SIZE_BYTES →
      validate_file_content content = none ∨
      validate_file_content content = some "File is empty" := by
  constructor
  · rw [download_ingest_trace]
    rcases hrd : fs.readFile (TMP_BASE_PATH ++ "/" ++ d ++ "/" ++ name)
        with e | content
    · simp [download_ingest_try, hex, hls, hft, hsz, hrd]
    · rcases hv : validate_file_content content with _ | msg <;>
        simp [download_ingest_try, hex, hls, hft, hsz, hrd, hv]
  · intro content hc
    unfold validate_file_content
    by_cases hemp : ((py_strip content).data.isEmpty) = true
    · right
      simp [hemp]
    · left
      simp [hemp, not_lt.mpr hc]

/-- Concrete instance of C10: a file whose reported size is exactly
50 MiB is read, and one-byte content passes the post-read size check. -/
theorem C10_exact_limit_witness :
    FsOp.opRead "/tmp/gitingest/d1/out.txt" ∈
        (download_ingest fsAtLimit "d1").2 ∧
    (validate_file_content "x" = none ∨
     validate_file_content "x" = some "File is empty") :=
  ⟨(C10_exact_limit_passes_both_size_checks fsAtLimit "d1" "out.txt"
      ["out.txt"] [] (by decide) rfl (by decide) rfl).1,
   (C10_exact_limit_passes_both_size_checks fsAtLimit "d1" "out.txt"
      ["out.txt"] [] (by decide) rfl (by decide) rfl).2
     "x" (by decide)⟩

end Gitingest
